import Mathlib

/-!
Verification development for the Paper2Code2Code pipeline
(src/Transformer_repo: paper_parser.py, planner.py, analyzer.py,
code_generator.py, evaluation.py).

The Python sources are shallowly embedded: JSON/YAML-shaped dynamic values
become the inductive type `JVal`, Python dictionaries become association
lists with string keys, fallible code returns `Except PyErr`, and the
`ValueError` messages of the source are carried verbatim so that the two
spec-level error kinds (`InvalidInputError`, `EmptyInputError`) remain
distinguishable.
-/

namespace Paper2Code

/-- Dynamic values as they occur in the paper JSON and in the YAML
configuration: `None`, booleans, integers, strings, lists, and
string-keyed dictionaries. -/
inductive JVal where
  | jNull : JVal
  | jBool : Bool → JVal
  | jInt : Int → JVal
  | jStr : String → JVal
  | jList : List JVal → JVal
  | jDict : List (String × JVal) → JVal

namespace JVal

mutual

/-- Boolean equality on `JVal` (the nested inductive blocks `deriving
DecidableEq`, so decidability is established by hand). -/
def beqV : JVal → JVal → Bool
  | jNull, jNull => true
  | jBool a, jBool b => a == b
  | jInt a, jInt b => a == b
  | jStr a, jStr b => a == b
  | jList xs, jList ys => beqL xs ys
  | jDict d, jDict e => beqD d e
  | _, _ => false

def beqL : List JVal → List JVal → Bool
  | [], [] => true
  | x :: xs, y :: ys => beqV x y && beqL xs ys
  | _, _ => false

def beqD : List (String × JVal) → List (String × JVal) → Bool
  | [], [] => true
  | (k, v) :: xs, (l, w) :: ys => k == l && beqV v w && beqD xs ys
  | _, _ => false

end

mutual

theorem beqV_iff : ∀ a b : JVal, beqV a b = true ↔ a = b
  | jNull, jNull => by simp [beqV]
  | jBool a, jBool b => by simp [beqV]
  | jInt a, jInt b => by simp [beqV]
  | jStr a, jStr b => by simp [beqV]
  | jList xs, jList ys => by simp [beqV, beqL_iff xs ys]
  | jDict d, jDict e => by simp [beqV, beqD_iff d e]
  | jNull, jBool _ | jNull, jInt _ | jNull, jStr _ | jNull, jList _ | jNull, jDict _
  | jBool _, jNull | jBool _, jInt _ | jBool _, jStr _ | jBool _, jList _ | jBool _, jDict _
  | jInt _, jNull | jInt _, jBool _ | jInt _, jStr _ | jInt _, jList _ | jInt _, jDict _
  | jStr _, jNull | jStr _, jBool _ | jStr _, jInt _ | jStr _, jList _ | jStr _, jDict _
  | jList _, jNull | jList _, jBool _ | jList _, jInt _ | jList _, jStr _ | jList _, jDict _
  | jDict _, jNull | jDict _, jBool _ | jDict _, jInt _ | jDict _, jStr _ | jDict _, jList _ => by
      simp [beqV]

theorem beqL_iff : ∀ xs ys : List JVal, beqL xs ys = true ↔ xs = ys
  | [], [] => by simp [beqL]
  | x :: xs, y :: ys => by simp [beqL, beqV_iff x y, beqL_iff xs ys]
  | [], _ :: _ => by simp [beqL]
  | _ :: _, [] => by simp [beqL]

theorem beqD_iff : ∀ xs ys : List (String × JVal), beqD xs ys = true ↔ xs = ys
  | [], [] => by simp [beqD]
  | (k, v) :: xs, (l, w) :: ys => by
      simp [beqD, beqV_iff v w, beqD_iff xs ys, and_assoc, Prod.ext_iff]
  | [], _ :: _ => by simp [beqD]
  | _ :: _, [] => by simp [beqD]

end

instance : DecidableEq JVal := fun a b =>
  decidable_of_iff (beqV a b = true) (beqV_iff a b)

end JVal

/-- Python exceptions that the embedded code can raise.  `ValueError`
keeps its message: the spec calls the two `ValueError`s of the source
`InvalidInputError` (malformed paper) and `EmptyInputError` (empty
stage input). -/
inductive PyErr where
  | typeError : PyErr
  | attributeError : PyErr
  | keyError : PyErr
  | valueError : String → PyErr
deriving DecidableEq

open JVal PyErr

/-- Decidable equality of `Except` results, so that concrete runs of the
embedded functions can be settled by `decide`. -/
instance instDecEqExcept {ε α : Type} [DecidableEq ε] [DecidableEq α] :
    DecidableEq (Except ε α)
  | .error e, .error f =>
    if h : e = f then isTrue (by rw [h])
    else isFalse (by intro c; cases c; exact h rfl)
  | .ok x, .ok y =>
    if h : x = y then isTrue (by rw [h])
    else isFalse (by intro c; cases c; exact h rfl)
  | .error _, .ok _ => isFalse (by intro c; cases c)
  | .ok _, .error _ => isFalse (by intro c; cases c)

/-- Python truthiness (`bool(v)`) on embedded values. -/
def truthy : JVal → Bool
  | jNull => false
  | jBool b => b
  | jInt n => n != 0
  | jStr s => s != ""
  | jList xs => !xs.isEmpty
  | jDict d => !d.isEmpty

/-- Lookup in a string-keyed dictionary (`d[k]` when present). -/
def dictGet (d : List (String × JVal)) (k : String) : Option JVal :=
  (d.find? (fun p => p.1 == k)).map (fun p => p.2)

/-- Python `d.get(k, default)` on a dictionary value. -/
def dictGetD (d : List (String × JVal)) (k : String) (dflt : JVal) : JVal :=
  (dictGet d k).getD dflt

/-- Python `v.get(k, default)` on an arbitrary value: dictionaries answer,
every other value raises `AttributeError` (no `get` attribute). -/
def pyGet (v : JVal) (k : String) (dflt : JVal) : Except PyErr JVal :=
  match v with
  | jDict d => .ok (dictGetD d k dflt)
  | _ => .error attributeError

/-- Python `k in v` for a string `k`: key test on dictionaries, substring
test on strings, membership test on lists; `TypeError` otherwise. -/
def strContainsChars (needle : List Char) : List Char → Bool
  | [] => needle.isEmpty
  | c :: rest => needle.isPrefixOf (c :: rest) || strContainsChars needle rest

/-- Python substring containment `needle in hay`. -/
def strContains (hay needle : String) : Bool :=
  strContainsChars needle.data hay.data

def pyIn (k : String) (v : JVal) : Except PyErr Bool :=
  match v with
  | jDict d => .ok (d.any (fun p => p.1 == k))
  | jStr s => .ok (strContains s k)
  | jList xs => .ok (xs.any (fun x => x == jStr k))
  | _ => .error typeError

/-- Python `v[k]` for a string key `k`: only dictionaries support string
subscripts; strings and lists require integer indices (`TypeError`). -/
def pySubscript (v : JVal) (k : String) : Except PyErr JVal :=
  match v with
  | jDict d =>
    match dictGet d k with
    | some x => .ok x
    | none => .error keyError
  | _ => .error typeError

/-- Python `str.strip()`: drop leading and trailing whitespace. -/
def pyStrip (s : String) : String :=
  String.mk (((s.data.dropWhile Char.isWhitespace).reverse.dropWhile
      Char.isWhitespace).reverse)

/-- `PaperParser._clean_text` applied to an arbitrary attribute value:
`.strip()` exists only on strings, anything else raises
`AttributeError`. -/
def pyStripV : JVal → Except PyErr String
  | jStr s => .ok (pyStrip s)
  | _ => .error attributeError

/-- Escape one character for Python `repr` of a string quoted by `q`. -/
def reprEscapeChar (q c : Char) : String :=
  if c == '\\' then "\\\\"
  else if c == '\n' then "\\n"
  else if c == '\t' then "\\t"
  else if c == '\r' then "\\r"
  else if c == q then String.mk ['\\', q]
  else String.mk [c]

/-- Python `repr` of a string (single quotes unless the string contains a
single quote and no double quote). -/
def pyReprStr (s : String) : String :=
  let q := if strContains s "'" && !strContains s "\"" then '"' else '\''
  String.mk [q] ++ String.join (s.data.map (reprEscapeChar q)) ++ String.mk [q]

mutual

/-- Python `repr` of an embedded value. -/
def pyRepr : JVal → String
  | jNull => "None"
  | jBool b => if b then "True" else "False"
  | jInt n => toString n
  | jStr s => pyReprStr s
  | jList xs => "[" ++ pyReprList xs ++ "]"
  | jDict d => "\x7b" ++ pyReprDict d ++ "\x7d"

def pyReprList : List JVal → String
  | [] => ""
  | [x] => pyRepr x
  | x :: rest => pyRepr x ++ ", " ++ pyReprList rest

def pyReprDict : List (String × JVal) → String
  | [] => ""
  | [(k, v)] => pyReprStr k ++ ": " ++ pyRepr v
  | (k, v) :: rest => pyReprStr k ++ ": " ++ pyRepr v ++ ", " ++ pyReprDict rest

end

/-- Python `str(v)` on an embedded value. -/
def pyStr : JVal → String
  | jStr s => s
  | jNull => "None"
  | jBool b => if b then "True" else "False"
  | jInt n => toString n
  | jList xs => "[" ++ pyReprList xs ++ "]"
  | jDict d => "\x7b" ++ pyReprDict d ++ "\x7d"

/-- Structured Paper object produced by `PaperParser.parse`
(src/Transformer_repo/paper_parser.py lines 42-129). -/
structure Paper where
  paper_id : String
  title : String
  abstract : String
  body_text : String
  figures : List String
  ref_entries : List (String × JVal)
deriving DecidableEq

/-- `PaperParser.__init__` (paper_parser.py lines 15-28): raises
`ValueError` — the spec's `InvalidInputError` — when `paper_id` or
`title` is missing. -/
def paperParserInit (paper_json : List (String × JVal)) : Except PyErr Unit :=
  if !(paper_json.any (fun p => p.1 == "paper_id"))
      || !(paper_json.any (fun p => p.1 == "title")) then
    .error (valueError "Paper JSON must contain 'paper_id' and 'title' fields.")
  else
    .ok ()

/-- Segment-collection loop shared by the `abstract`, `body_text` and
`back_matter` extractions (paper_parser.py lines 65-73, 95-103 and
111-118): record entries contribute their trimmed `text` when non-empty
(`.strip()` on a non-string raises `AttributeError`), plain strings are
appended trimmed even when empty, other entries are skipped. -/
def collectSegs : List JVal → Except PyErr (List String)
  | [] => .ok []
  | jDict d :: rest => do
      let seg ← pyStripV (dictGetD d "text" (jStr ""))
      let tail ← collectSegs rest
      .ok (if seg != "" then seg :: tail else tail)
  | jStr s :: rest => do
      let tail ← collectSegs rest
      .ok (pyStrip s :: tail)
  | _ :: rest => collectSegs rest

/-- Comprehension of paper_parser.py lines 79-83: only record entries
with a non-empty trimmed `text` contribute; plain strings are dropped. -/
def collectSegsPdf : List JVal → Except PyErr (List String)
  | [] => .ok []
  | jDict d :: rest => do
      let seg ← pyStripV (dictGetD d "text" (jStr ""))
      let tail ← collectSegsPdf rest
      .ok (if seg != "" then seg :: tail else tail)
  | _ :: rest => collectSegsPdf rest

/-- Fallback branch of the abstract extraction (paper_parser.py lines
76-88): reached when the `abstract` key is absent or its value falsy;
evaluates `"abstract" in paper_json["pdf_parse"]` (which raises
`TypeError` on non-container values) and then subscripts. -/
def extractAbstractPdf (paper_json : List (String × JVal)) : Except PyErr String :=
  match dictGet paper_json "pdf_parse" with
  | some pv => do
      let hasAbs ← pyIn "abstract" pv
      if hasAbs then do
        let pa ← pySubscript pv "abstract"
        match pa with
        | jList items => do
            let segs ← collectSegsPdf items
            .ok (String.intercalate " " segs)
        | jStr s => .ok (pyStrip s)
        | _ => .ok ""
      else
        .ok ""
  | none => .ok ""

/-- Abstract extraction (paper_parser.py lines 62-90): the `abstract`
key is used only when present and truthy; a list value is joined from
`collectSegs` with single spaces, a string value is trimmed, any other
truthy value leaves the abstract empty; otherwise the `pdf_parse`
fallback runs. -/
def extractAbstract (paper_json : List (String × JVal)) : Except PyErr String :=
  match dictGet paper_json "abstract" with
  | some av =>
    if truthy av then
      match av with
      | jList items => do
          let segs ← collectSegs items
          .ok (String.intercalate " " segs)
      | jStr s => .ok (pyStrip s)
      | _ => .ok ""
    else
      extractAbstractPdf paper_json
  | none => extractAbstractPdf paper_json

/-- Body extraction (paper_parser.py lines 93-107): a list-valued
`body_text` is joined from `collectSegs` with newlines, anything else
yields the empty string. -/
def extractBody (paper_json : List (String × JVal)) : Except PyErr String :=
  match dictGet paper_json "body_text" with
  | some (jList items) => do
      let segs ← collectSegs items
      .ok (String.intercalate "\n" segs)
  | _ => .ok ""

/-- Figure extraction (paper_parser.py lines 110-119). -/
def extractFigures (paper_json : List (String × JVal)) : Except PyErr (List String) :=
  match dictGet paper_json "back_matter" with
  | some (jList items) => collectSegs items
  | _ => .ok []

/-- Reference-entry extraction (paper_parser.py lines 122-127). -/
def extractRefEntries (paper_json : List (String × JVal)) : List (String × JVal) :=
  match dictGet paper_json "ref_entries" with
  | some (jDict d) => d
  | _ => []

/-- Body of `PaperParser.parse` (paper_parser.py lines 42-129). -/
def parseFields (paper_json : List (String × JVal)) : Except PyErr Paper := do
  let pid := pyStrip (pyStr (dictGetD paper_json "paper_id" (jStr "")))
  let ttl := pyStrip (pyStr (dictGetD paper_json "title" (jStr "")))
  let ab ← extractAbstract paper_json
  let bd ← extractBody paper_json
  let figs ← extractFigures paper_json
  .ok ⟨pid, ttl, ab, bd, figs, extractRefEntries paper_json⟩

/-- `PaperParser(paper_json).parse()`: construction check followed by
field extraction. -/
def paperParse (paper_json : List (String × JVal)) : Except PyErr Paper := do
  let _ ← paperParserInit paper_json
  parseFields paper_json

/-- `plan["paper_summary"]` (planner.py lines 65-68). -/
structure PaperSummary where
  title : String
  abstract_excerpt : String
deriving DecidableEq

/-- Overall plan built by `Planner.create_overall_plan`
(planner.py lines 28-72). -/
structure OverallPlan where
  implementation_goal : String
  methodology_overview : String
  experimental_setup : String
  ambiguous_details : List String
  paper_summary : PaperSummary
deriving DecidableEq

/-- String length in code units (Python `len` on `str`). -/
def pyLen (s : String) : Nat := s.data.length

/-- Python slice `s[:n]`. -/
def pySlice (s : String) (n : Nat) : String := String.mk (s.data.take n)

/-- `Planner.create_overall_plan` (planner.py lines 28-72) over the
structured Paper object, which always carries the `title`, `abstract`
and `body_text` keys, so the `.get` defaults of lines 39-41 never
fire in the pipeline. -/
def createOverallPlan (paper : Paper) : OverallPlan :=
  let title := paper.title
  let abstract := paper.abstract
  let body_text := paper.body_text
  { implementation_goal :=
      "Reproduce the experiments and methodologies described in the paper titled '"
        ++ title ++ "'."
  , methodology_overview :=
      "Components include data preprocessing, model training, evaluation, and architectural design "
        ++ "with interdependent modules mirroring the multi-stage pipeline described in the paper."
  , experimental_setup :=
      "Experimentation should follow a dependency-aware pipeline utilizing n=8 sampling for evaluation, "
        ++ "and both reference-based and reference-free evaluation using the specified evaluation model."
  , ambiguous_details :=
      (if abstract == "" then
        ["Abstract is missing or insufficient to extract methodology details."]
      else []) ++
      (if body_text == "" then
        ["Body text is missing; experimental procedures and detailed methods are unclear."]
      else [])
  , paper_summary :=
    { title := title
    , abstract_excerpt :=
        pySlice abstract 200 ++ (if pyLen abstract > 200 then "..." else "") } }

/-- Outcome of reading and YAML-parsing the configuration resource
(planner.py lines 169-177, evaluation.py lines 44-52): either the read
or parse raised, or it produced a value (`None` for an empty file). -/
inductive LoadOutcome where
  | failure : LoadOutcome
  | parsed : JVal → LoadOutcome
deriving DecidableEq

/-- `config["training"]` as built by `Planner.generate_config`
(planner.py lines 183-187); the values are stored verbatim. -/
structure TrainingConfig where
  learning_rate : JVal
  batch_size : JVal
  epochs : JVal
deriving DecidableEq

/-- `config["evaluation"]` as built by `Planner.generate_config`
(planner.py lines 189-192). -/
structure EvaluationConfig where
  n_way_sampling : JVal
  evaluation_model : JVal
deriving DecidableEq

/-- Configuration record returned by `Planner.generate_config`. -/
structure ConfigRecord where
  training : TrainingConfig
  evaluation : EvaluationConfig
deriving DecidableEq

/-- `Planner.generate_config` (planner.py lines 158-195): a read or
parse failure, and a falsy parse result, are replaced by the empty
dictionary; each field then falls back to its hardcoded default.  A
truthy non-dictionary parse result reaches `loaded_config.get` and
raises `AttributeError`, as do truthy non-dictionary `training` or
`evaluation` entries. -/
def generateConfig (outcome : LoadOutcome) : Except PyErr ConfigRecord := do
  let loaded : JVal :=
    match outcome with
    | .failure => jDict []
    | .parsed v => if truthy v then v else jDict []
  let training_config ← pyGet loaded "training" (jDict [])
  let evaluation_config ← pyGet loaded "evaluation" (jDict [])
  let lr ← pyGet training_config "learning_rate" (jStr "0.001")
  let bs ← pyGet training_config "batch_size" (jStr "32")
  let ep ← pyGet training_config "epochs" (jStr "10")
  let nw ← pyGet evaluation_config "n_way_sampling" (jInt 8)
  let em ← pyGet evaluation_config "evaluation_model" (jStr "o3-mini-high")
  .ok ⟨⟨lr, bs, ep⟩, ⟨nw, em⟩⟩

/-- Canonical six-entry file list (planner.py lines 88-95, repeated as
the fallback in analyzer.py lines 25-32 and 36-43). -/
def defaultFileList : List String :=
  ["main.py", "paper_parser.py", "planner.py", "analyzer.py",
   "code_generator.py", "evaluation.py"]

/-- Canonical file list as the dynamic value stored on the analyzer. -/
def defaultFileListJ : JVal := jList (defaultFileList.map jStr)

/-- `Analyzer.__init__` (analyzer.py lines 13-43), reduced to the one
piece of state `analyze_modules` reads: the file list.  A missing or
falsy `architecture_design` takes the default list (the source stores
it into the design dictionary and immediately reads it back); a falsy
non-dictionary design raises `TypeError` at that item assignment; a
truthy design is asked for `file_list` (raising `AttributeError` when
it is not a dictionary), with a falsy result replaced by the default
list. -/
def analyzerInit (plan : List (String × JVal)) : Except PyErr JVal :=
  let arch := dictGetD plan "architecture_design" (jDict [])
  if truthy arch then do
    let fl ← pyGet arch "file_list" (jList [])
    if truthy fl then .ok fl else .ok defaultFileListJ
  else
    match arch with
    | jDict _ => .ok defaultFileListJ
    | _ => .error typeError

/-- Per-module specification record (analyzer.py lines 63-124). -/
structure ModuleSpec where
  functionality : String
  expected_inputs : List String
  expected_outputs : List String
  dependencies : List String
deriving DecidableEq

/-- Static `module_specs` table of `Analyzer.analyze_modules`
(analyzer.py lines 63-124). -/
def moduleSpecs : List (String × ModuleSpec) :=
  [ ("paper_parser.py",
     { functionality :=
         "Parses the input paper JSON and produces a structured Paper object with fields: "
           ++ "paper_id, title, abstract, body_text, figures, and ref_entries."
     , expected_inputs := ["Raw paper JSON"]
     , expected_outputs := ["Structured Paper object (dict)"]
     , dependencies := [] })
  , ("planner.py",
     { functionality :=
         "Generates an overall plan, architecture design (including file list, class diagram, "
           ++ "and sequence diagram), and configuration details from the structured Paper object."
     , expected_inputs := ["Structured Paper object (from paper_parser.py)"]
     , expected_outputs :=
         [ "Overall plan dictionary"
         , "Architecture design dictionary (file_list, class diagram, sequence diagram)"
         , "Configuration details dictionary" ]
     , dependencies := ["paper_parser.py"] })
  , ("analyzer.py",
     { functionality :=
         "Analyzes the Planner's output to produce detailed file-level specifications, including module "
           ++ "responsibilities, input/output contracts, and inter-module dependency relations."
     , expected_inputs :=
         ["Plan dictionary containing overall plan, architecture design, and configuration details"]
     , expected_outputs := ["List of file-level analysis dictionaries for each module"]
     , dependencies := ["planner.py"] })
  , ("code_generator.py",
     { functionality :=
         "Generates modular, dependency-aware code templates for each file based on the overall plan and "
           ++ "the detailed analysis produced by Analyzer."
     , expected_inputs := ["Overall plan dictionary", "Detailed file-level analysis from Analyzer"]
     , expected_outputs := ["Dictionary of generated code files (filename : code string)"]
     , dependencies := ["planner.py", "analyzer.py"] })
  , ("evaluation.py",
     { functionality :=
         "Evaluates the generated code repository using reference-based and reference-free metrics as defined "
           ++ "in the experimental setup."
     , expected_inputs := ["Generated repository (from code_generator.py)"]
     , expected_outputs := ["Evaluation metrics dictionary"]
     , dependencies := ["code_generator.py"] })
  , ("main.py",
     { functionality :=
         "Orchestrates the entire pipeline by sequentially invoking the parsing, planning, analysis, code generation, "
           ++ "and evaluation modules."
     , expected_inputs := ["Configuration details and outputs from all modules"]
     , expected_outputs := ["Final code repository and evaluation metrics"]
     , dependencies :=
         [ "paper_parser.py", "planner.py", "analyzer.py", "code_generator.py", "evaluation.py" ] })
  ]

/-- Fallback specification for unknown module names
(analyzer.py lines 131-136). -/
def defaultModuleSpec : ModuleSpec :=
  { functionality := "No specific functionality defined."
  , expected_inputs := []
  , expected_outputs := []
  , dependencies := [] }

/-- Analysis record emitted per file-list entry
(analyzer.py lines 137-143). -/
structure ModuleAnalysis where
  file_name : JVal
  functionality : String
  expected_inputs : List String
  expected_outputs : List String
  dependencies : List String
deriving DecidableEq

/-- Python iteration `for x in v`: lists yield their elements, strings
their characters, dictionaries their keys; other values raise
`TypeError`. -/
def pyIterList : JVal → Except PyErr (List JVal)
  | jList xs => .ok xs
  | jStr s => .ok (s.data.map (fun c => jStr (String.mk [c])))
  | jDict d => .ok (d.map (fun p => jStr p.1))
  | _ => .error typeError

/-- Dictionary keys must be hashable: lists and dictionaries are not. -/
def isHashable : JVal → Bool
  | jList _ => false
  | jDict _ => false
  | _ => true

/-- `module_specs.get(file_name)` (analyzer.py line 128). -/
def specLookup (k : JVal) : Except PyErr (Option ModuleSpec) :=
  if isHashable k then
    .ok ((moduleSpecs.find? (fun p => jStr p.1 == k)).map (fun p => p.2))
  else
    .error typeError

/-- One iteration of the analysis loop (analyzer.py lines 127-144). -/
def analyzeOne (k : JVal) : Except PyErr ModuleAnalysis := do
  let spec ← specLookup k
  let s := spec.getD defaultModuleSpec
  .ok { file_name := k
      , functionality := s.functionality
      , expected_inputs := s.expected_inputs
      , expected_outputs := s.expected_outputs
      , dependencies := s.dependencies }

/-- `Analyzer.analyze_modules` (analyzer.py lines 45-147) over the file
list stored by the constructor. -/
def analyzeModules (file_list : JVal) : Except PyErr (List ModuleAnalysis) := do
  let items ← pyIterList file_list
  items.mapM analyzeOne

/-- `CodeGenerator.__init__` (code_generator.py lines 21-36): an empty
analysis list and an empty plan dictionary raise `ValueError` — the
spec's `EmptyInputError`. -/
def codeGeneratorInit (analysis : List JVal) (plan : List (String × JVal)) :
    Except PyErr Unit :=
  if analysis.isEmpty then
    .error (valueError "Empty analysis list provided.")
  else if plan.isEmpty then
    .error (valueError "Empty plan dictionary provided.")
  else
    .ok ()

/-- Replacement of every non-overlapping occurrence of `pat`, scanned
left to right (Python `str.replace`; this model covers non-empty
patterns only, which is all the source uses).  The first list argument
is structural fuel — one cell is spent per emitted position, and every
step consumes at least one input character, so fuel initialized to the
input itself never runs out; structural recursion keeps concrete runs
reducible inside the kernel. -/
def pyReplaceChars (pat rep : List Char) : List Char → List Char → List Char
  | _, [] => []
  | [], s => s
  | _ :: fuel, c :: rest =>
    if pat ≠ [] ∧ pat.isPrefixOf (c :: rest) then
      rep ++ pyReplaceChars pat rep fuel (rest.drop (pat.length - 1))
    else
      c :: pyReplaceChars pat rep fuel rest

/-- Python `s.replace(pat, rep)`. -/
def pyReplace (s pat rep : String) : String :=
  String.mk (pyReplaceChars pat.data rep.data s.data s.data)

/-- `CodeGenerator._inject_configuration` (code_generator.py lines
324-344): literal substitution of the five configuration placeholders,
reading values (with defaults) from `plan["config"]`. -/
def injectConfiguration (plan : List (String × JVal)) (template : String) :
    Except PyErr String := do
  let config := dictGetD plan "config" (jDict [])
  let training_config ← pyGet config "training" (jDict [])
  let evaluation_config ← pyGet config "evaluation" (jDict [])
  let lr ← pyGet training_config "learning_rate" (jStr "0.001")
  let t := pyReplace template "\x7blearning_rate\x7d" (pyStr lr)
  let bs ← pyGet training_config "batch_size" (jStr "32")
  let t := pyReplace t "\x7bbatch_size\x7d" (pyStr bs)
  let ep ← pyGet training_config "epochs" (jStr "10")
  let t := pyReplace t "\x7bepochs\x7d" (pyStr ep)
  let nw ← pyGet evaluation_config "n_way_sampling" (jStr "8")
  let t := pyReplace t "\x7bn_way_sampling\x7d" (pyStr nw)
  let em ← pyGet evaluation_config "evaluation_model" (jStr "o3-mini-high")
  let t := pyReplace t "\x7bevaluation_model\x7d" (pyStr em)
  .ok t

/-- Token counter for one file: Python `code.split()` splits on runs of
whitespace and ignores leading and trailing whitespace
(evaluation.py line 79). -/
def countTokensAux : List Char → Bool → Nat
  | [], _ => 0
  | c :: rest, inTok =>
    if c.isWhitespace then countTokensAux rest false
    else if inTok then countTokensAux rest true
    else 1 + countTokensAux rest true

/-- Number of whitespace-delimited tokens in a string. -/
def pyTokenCount (s : String) : Nat := countTokensAux s.data false

/-- Word-constituent characters of the regex `\b` boundary
(letters, digits and underscore). -/
def isWordChar (c : Char) : Bool := c.isAlphanum || c == '_'

/-- Is the optional preceding character a word character. -/
def prevIsWord : Option Char → Bool
  | none => false
  | some c => isWordChar c

/-- Does the remaining input start with a word character. -/
def headIsWord : List Char → Bool
  | [] => false
  | c :: _ => isWordChar c

/-- Occurrence counter for the regex `\bdef\b`
(evaluation.py line 82): `def` surrounded by non-word characters or
string boundaries, matches non-overlapping left to right. -/
def countDefsAux : Option Char → List Char → Nat
  | prev, 'd' :: 'e' :: 'f' :: rest =>
    if !prevIsWord prev && !headIsWord rest then
      1 + countDefsAux (some 'f') rest
    else
      countDefsAux (some 'd') ('e' :: 'f' :: rest)
  | _, c :: rest => countDefsAux (some c) rest
  | _, [] => 0

/-- Number of `\bdef\b` matches in a string. -/
def countDefs (s : String) : Nat := countDefsAux none s.data

/-- Summary statistics of `Evaluator._compute_summary_statistics`
(evaluation.py lines 64-90). -/
structure SummaryStatistics where
  file_count : Nat
  total_tokens : Nat
  function_count : Nat
deriving DecidableEq

def computeSummaryStatistics (repository : List (String × String)) :
    SummaryStatistics :=
  { file_count := repository.length
  , total_tokens := (repository.map (fun p => pyTokenCount p.2)).sum
  , function_count := (repository.map (fun p => countDefs p.2)).sum }

/-- State the `Evaluator` constructor leaves for `evaluate`
(evaluation.py lines 24-62). -/
structure EvaluatorState where
  repository : List (String × String)
  n_way_sampling : JVal
  evaluation_model : JVal
deriving DecidableEq

/-- `Evaluator.__init__` (evaluation.py lines 24-62): an empty
repository raises `ValueError` — the spec's `EmptyInputError`; an
absent config is loaded from the configuration resource with a falsy
result replaced by the empty dictionary; the evaluation settings then
fall back field-by-field to their defaults.  An explicitly supplied
config, empty or not, is stored as-is and never raises by itself
(a truthy non-dictionary raises `AttributeError` at the first
`.get`). -/
def evaluatorInit (repository : List (String × String)) (config : Option JVal)
    (outcome : LoadOutcome) : Except PyErr EvaluatorState :=
  if repository.isEmpty then
    .error (valueError "Repository cannot be empty.")
  else do
    let cfg : JVal :=
      match config with
      | some c => c
      | none =>
        match outcome with
        | .failure => jDict []
        | .parsed v => if truthy v then v else jDict []
    let evaluation_config ← pyGet cfg "evaluation" (jDict [])
    let nw ← pyGet evaluation_config "n_way_sampling" (jInt 8)
    let em ← pyGet evaluation_config "evaluation_model" (jStr "o3-mini-high")
    .ok ⟨repository, nw, em⟩

/-- Lowercasing used by `prompt.lower()`. -/
def lowerStr (s : String) : String := String.mk (s.data.map Char.toLower)

/-- `Evaluator._simulate_llm_evaluation` (evaluation.py lines 92-109):
4.0 when the lowercased prompt contains `gold-standard`, else 4.5.
Scores are modelled as exact rationals; for the two constants involved
every float operation of the source is exact, so the models agree. -/
def simulateLlmEvaluation (prompt : String) : ℚ :=
  if strContains (lowerStr prompt) "gold-standard" then 4 else 4.5

/-- Banker's rounding of a rational to an integer (Python `round`). -/
def roundHalfEvenQ (x : ℚ) : ℤ :=
  let f := ⌊x⌋
  let r := x - f
  if r < 1 / 2 then f
  else if r > 1 / 2 then f + 1
  else if Even f then f else f + 1

/-- Python `round(x, 2)`. -/
def pyRound2 (x : ℚ) : ℚ := (roundHalfEvenQ (x * 100) : ℚ) / 100

/-- Result record of `Evaluator.evaluate`
(evaluation.py lines 165-172). -/
structure EvaluationResult where
  reference_based_score : Option ℚ
  reference_free_score : Option ℚ
  human_score : ℚ
  summary_statistics : SummaryStatistics
  evaluation_model : JVal
  n_way_sampling : JVal
deriving DecidableEq

/-- `range(v)` iteration count: integers clamp below at zero, booleans
count as 0 or 1, anything else raises `TypeError`
(evaluation.py line 150). -/
def pyRangeLen : JVal → Except PyErr Nat
  | jInt n => .ok n.toNat
  | jBool b => .ok (if b then 1 else 0)
  | _ => .error typeError

/-- Reference-based prompt when a gold standard is present
(evaluation.py lines 141-142). -/
def promptRefGold : String :=
  "Evaluate the generated repository against the gold-standard repository. "
    ++ "Assess the coverage and correctness of the required components on a scale of 1 to 5."

/-- Reference-based prompt placeholder without a gold standard
(evaluation.py line 144). -/
def promptRefNone : String := "No gold-standard available."

/-- Reference-free prompt (evaluation.py lines 146-147). -/
def promptFree : String :=
  "Evaluate the generated repository based solely on the experimental methods described in the paper. "
    ++ "Provide a correctness score on a scale of 1 to 5."

/-- `Evaluator.evaluate` (evaluation.py lines 111-174): summary
statistics, the gold-standard sentinel test, `n_way_sampling` stub
calls per active score type, averaging rounded to two decimal places
(absent — `None` — for a score type with zero samples), and the fixed
human score 4.2. -/
def evaluate (st : EvaluatorState) : Except PyErr EvaluationResult := do
  let summary_stats := computeSummaryStatistics st.repository
  let has_gold_standard := st.repository.any (fun p => p.1 == "gold_standard")
  let prompt_ref := if has_gold_standard then promptRefGold else promptRefNone
  let n ← pyRangeLen st.n_way_sampling
  let ref_based_scores : List ℚ :=
    if has_gold_standard then List.replicate n (simulateLlmEvaluation prompt_ref)
    else []
  let ref_free_scores : List ℚ := List.replicate n (simulateLlmEvaluation promptFree)
  let reference_based_score : Option ℚ :=
    if has_gold_standard && !ref_based_scores.isEmpty then
      some (pyRound2 (ref_based_scores.sum / (ref_based_scores.length : ℚ)))
    else
      none
  let reference_free_score : Option ℚ :=
    if !ref_free_scores.isEmpty then
      some (pyRound2 (ref_free_scores.sum / (ref_free_scores.length : ℚ)))
    else
      none
  .ok { reference_based_score := reference_based_score
      , reference_free_score := reference_free_score
      , human_score := 4.2
      , summary_statistics := summary_stats
      , evaluation_model := st.evaluation_model
      , n_way_sampling := st.n_way_sampling }

/-- Construction followed by evaluation, the way main.py drives the
evaluator. -/
def evaluateRepository (repository : List (String × String)) (config : Option JVal)
    (outcome : LoadOutcome) : Except PyErr EvaluationResult :=
  (evaluatorInit repository config outcome).bind evaluate

/-- Modelled from the spec: the `code_generator.py` branch of
`CodeGenerator._generate_template` (code_generator.py lines 189-312).
The source region is not parseable Python: the nested `f\'\'\'` on
line 231 terminates the outer f-string opened on line 191, and the
file is rejected with a `SyntaxError` on line 231, so no behaviour can
be taken from it directly.  This constant reconstructs the template
the source documents: the text between the outer triple quotes with
`\x7b\x7bname\x7d\x7d` rendered as a literal placeholder, `\\"` rendered
as a quote, and `file_name`/`details` substituted — §4.4 of the spec
("the other three — evaluation, main, self — have bespoke bodies",
followed by "literal substitution of five named placeholders"). -/
def intendedSelfTemplate (details : String) : String :=
  "\"\"\"
Module: code_generator.py
" ++ details ++ "
This module defines the CodeGenerator class, which generates code templates for all repository files.
Configuration placeholders:
    - training.learning_rate: \x7blearning_rate\x7d
    - training.batch_size: \x7bbatch_size\x7d
    - training.epochs: \x7bepochs\x7d
\"\"\"
\nimport logging
from typing import Any, Dict, List

class CodeGenerator:
    def __init__(self, analysis: List[Dict[str, Any]], plan: Dict[str, Any]) -> None:
        if not analysis:
            logging.error(\"Empty analysis list provided to CodeGenerator.\")
            raise ValueError(\"Analysis list is empty.\")
        if not plan:
            logging.error(\"Empty plan dictionary provided to CodeGenerator.\")
            raise ValueError(\"Plan dictionary is empty.\")
        self.analysis = analysis
        self.plan = plan

    def generate_code(self) -> Dict[str, str]:
        generated_code = \x7b\x7d
        for module in self.analysis:
            file_name = module.get(\"file_name\")
            if not file_name:
                logging.warning(\"Module in analysis missing 'file_name'; skipping.\")
                continue
            details = module.get(\"functionality\", \"\")
            template = self._generate_template(file_name, details)
            final_code = self._inject_configuration(template)
            generated_code[file_name] = final_code
            logging.info(\"Generated code for module: %s\", file_name)
        return generated_code

    def _generate_template(self, file_name: str, details: str) -> str:
        if file_name in [\"paper_parser.py\", \"planner.py\", \"analyzer.py\"]:
            return f'''\"\"\"Module: \x7bfile_name\x7d
\x7bdetails\x7d
This module is assumed to be already implemented.
\"\"\"'''
        elif file_name == \"evaluation.py\":
            return '''\"\"\"Module: evaluation.py
Defines the Evaluator class for repository evaluation.
Configuration: n_way_sampling=\x7bn_way_sampling\x7d, evaluation_model=\x7bevaluation_model\x7d
\"\"\" 
\nimport logging
from typing import Any, Dict

class Evaluator:
    def __init__(self, repository: Dict[str, Any]) -> None:
        if not repository:
            logging.error(\"Empty repository provided to Evaluator.\")
            raise ValueError(\"Repository cannot be empty.\")
        self.repository = repository

    def evaluate(self) -> Dict[str, Any]:
        metrics = \x7b
            \"reference_based\": 4.0,
            \"reference_free\": 4.5,
            \"human_score\": 4.2
        \x7d
        logging.info(\"Evaluation metrics: %s\", metrics)
        return metrics
'''
        elif file_name == \"main.py\":
            return '''\"\"\"Module: main.py
Entry point for the PaperCoder pipeline.
Orchestrates parsing, planning, analysis, code generation, and evaluation.
\"\"\" 
\nimport logging\nimport json
from paper_parser import PaperParser
from planner import Planner
from analyzer import Analyzer
from code_generator import CodeGenerator
from evaluation import Evaluator

def main() -> None:
    try:
        with open(\"config.yaml\", \"r\", encoding=\"utf-8\") as config_file:\n            import yaml
            config = yaml.safe_load(config_file)
    except Exception as e:
        logging.error(\"Failed to load config.yaml: %s\", e)
        return

    with open(\"paper.json\", \"r\", encoding=\"utf-8\") as paper_file:
        paper_json = json.load(paper_file)
    
    parser = PaperParser(paper_json)
    paper = parser.parse()
    planner = Planner(paper)
    overall_plan = planner.create_overall_plan()
    architecture_design = planner.generate_architecture_design()
    config_details = planner.generate_config()
    
    combined_plan = \x7b
        \"overall_plan\": overall_plan,
        \"architecture_design\": architecture_design,
        \"config\": config_details
    \x7d
    
    analyzer = Analyzer(combined_plan)
    analysis = analyzer.analyze_modules()
    
    code_gen = CodeGenerator(analysis, combined_plan)
    generated_repo = code_gen.generate_code()
    
    evaluator = Evaluator(generated_repo)
    metrics = evaluator.evaluate()
    logging.info(\"Final evaluation metrics: %s\", metrics)

if __name__ == \"__main__\":
    logging.basicConfig(level=logging.INFO, format='%(asctime)s - %(levelname)s - %(message)s')
    main()
"

section Helpers

theorem mk_append_mk (l m : List Char) :
    String.mk l ++ String.mk m = String.mk (l ++ m) := rfl

theorem str_append_empty (s : String) : s ++ "" = s := by
  cases s with
  | mk l =>
    show String.mk l ++ String.mk [] = String.mk l
    rw [mk_append_mk, List.append_nil]

end Helpers

/-- C3 (confirmed): an abstract of exactly 200 code units is copied into
`paper_summary.abstract_excerpt` unchanged and without an ellipsis; an
abstract of 201 or more code units yields exactly its first 200 code
units followed by `...` (planner.py line 67). -/
theorem c3_abstract_excerpt (paper : Paper) :
    (pyLen paper.abstract = 200 →
      (createOverallPlan paper).paper_summary.abstract_excerpt = paper.abstract)
    ∧ (201 ≤ pyLen paper.abstract →
      (createOverallPlan paper).paper_summary.abstract_excerpt
        = pySlice paper.abstract 200 ++ "...") := by
  constructor
  · intro h
    have hlt : ¬ pyLen paper.abstract > 200 := by omega
    simp only [createOverallPlan, if_neg hlt, str_append_empty]
    cases habs : paper.abstract with
    | mk l =>
      have hl : l.length = 200 := by simpa [pyLen, habs] using h
      simp [pySlice, List.take_of_length_le, hl.le]
  · intro h
    have hgt : pyLen paper.abstract > 200 := by omega
    simp [createOverallPlan, if_pos hgt]

/-- C3 witness: instantiation at a 200-character and a 201-character
abstract. -/
theorem c3_abstract_excerpt_witness :
    (createOverallPlan
        ⟨"p1", "t", String.mk (List.replicate 200 'a'), "b", [], []⟩
      ).paper_summary.abstract_excerpt = String.mk (List.replicate 200 'a')
    ∧ (createOverallPlan
        ⟨"p1", "t", String.mk (List.replicate 201 'a'), "b", [], []⟩
      ).paper_summary.abstract_excerpt
        = pySlice (String.mk (List.replicate 201 'a')) 200 ++ "..." :=
  ⟨(c3_abstract_excerpt _).1
      (by show (List.replicate 200 'a').length = 200; rw [List.length_replicate]),
   (c3_abstract_excerpt _).2
      (by show 201 ≤ (List.replicate 201 'a').length; rw [List.length_replicate])⟩

/-- C2 counterexample: the evaluator constructor is given a non-empty
repository and an explicitly empty config and succeeds with the default
settings instead of raising `EmptyInputError`
(evaluation.py lines 42-60: only `config is None` triggers the file
load, and no branch rejects an empty config). -/
theorem c2_counterexample :
    evaluatorInit [("main.py", "print('x')")] (some (jDict [])) LoadOutcome.failure
      = .ok ⟨[("main.py", "print('x')")], jInt 8, jStr "o3-mini-high"⟩ := rfl

/-- C2 as amended: an empty repository to the evaluator, and an empty
analysis list or an empty plan to the code generator, raise
`ValueError` — the spec's `EmptyInputError` — at construction; an
empty config passed explicitly to the evaluator does not raise and
silently falls back to the default evaluation settings. -/
theorem c2_empty_input_errors (a : JVal) (arest : List JVal)
    (plan : List (String × JVal)) (cfg : Option JVal) (o : LoadOutcome)
    (r : String × String) (rrest : List (String × String)) :
    codeGeneratorInit [] plan = .error (valueError "Empty analysis list provided.")
    ∧ codeGeneratorInit (a :: arest) []
        = .error (valueError "Empty plan dictionary provided.")
    ∧ evaluatorInit [] cfg o = .error (valueError "Repository cannot be empty.")
    ∧ evaluatorInit (r :: rrest) (some (jDict [])) o
        = .ok ⟨r :: rrest, jInt 8, jStr "o3-mini-high"⟩ :=
  ⟨rfl, rfl, rfl, rfl⟩

theorem dictGet_nil (k : String) : dictGet [] k = none := rfl

/-- C7 counterexample: a configuration resource parsing to the truthy
non-mapping value `"hello"` makes `Planner.generate_config` raise
`AttributeError` at `loaded_config.get("training", ...)`
(planner.py line 180), so the failure is propagated to the caller. -/
theorem c7_counterexample :
    generateConfig (LoadOutcome.parsed (jStr "hello")) = .error attributeError := rfl

/-- Well-shaped configuration load outcomes: a read or parse failure,
a falsy parse result, or a mapping whose `training` and `evaluation`
entries are absent or mappings themselves. -/
def subEntryOkB (d : List (String × JVal)) (k : String) : Bool :=
  match dictGet d k with
  | none => true
  | some (jDict _) => true
  | some _ => false

def wfConfigOutcome : LoadOutcome → Bool
  | .failure => true
  | .parsed v =>
    if truthy v then
      match v with
      | jDict d => subEntryOkB d "training" && subEntryOkB d "evaluation"
      | _ => false
    else true

/-- Configuration loading as worded by the spec: each field is the
loaded value when the enclosing sections exist, and the hardcoded
default otherwise. -/
def specLoadConfig (outcome : LoadOutcome) : ConfigRecord :=
  let get2 : String → String → Option JVal := fun sect key =>
    match outcome with
    | .failure => none
    | .parsed v =>
      match v with
      | jDict d =>
        match dictGet d sect with
        | some (jDict sd) => dictGet sd key
        | _ => none
      | _ => none
  { training :=
    { learning_rate := (get2 "training" "learning_rate").getD (jStr "0.001")
    , batch_size := (get2 "training" "batch_size").getD (jStr "32")
    , epochs := (get2 "training" "epochs").getD (jStr "10") }
  , evaluation :=
    { n_way_sampling := (get2 "evaluation" "n_way_sampling").getD (jInt 8)
    , evaluation_model := (get2 "evaluation" "evaluation_model").getD (jStr "o3-mini-high") } }

/-- C7 as amended: for every well-shaped configuration load outcome —
read or parse failure, falsy parse result, or a mapping whose
`training`/`evaluation` entries are absent or mappings —
`generate_config` returns without raising and fills every field from the
loaded value or its default (learning rate "0.001", batch size "32",
epochs "10", n-way sampling 8, model "o3-mini-high"); a resource
parsing to a truthy non-mapping, or with truthy non-mapping sections,
raises `AttributeError` instead. -/
theorem c7_load_config (o : LoadOutcome) (h : wfConfigOutcome o = true) :
    generateConfig o = .ok (specLoadConfig o) := by
  cases o with
  | failure => rfl
  | parsed v =>
    by_cases ht : truthy v = true
    · cases v with
      | jDict d =>
        have hsub : subEntryOkB d "training" = true ∧ subEntryOkB d "evaluation" = true := by
          simpa [wfConfigOutcome, ht] using h
        simp only [generateConfig, specLoadConfig, ht, if_pos]
        rcases htr : dictGet d "training" with _ | tv
        · rcases hev : dictGet d "evaluation" with _ | ev
          · simp [pyGet, dictGetD, htr, hev, dictGet_nil, Bind.bind, Except.bind]
          · have : ∃ sd, ev = jDict sd := by
              have := hsub.2
              simp [subEntryOkB, hev] at this
              cases ev <;> simp_all
            rcases this with ⟨sd, rfl⟩
            simp [pyGet, dictGetD, htr, hev, dictGet_nil, Bind.bind, Except.bind]
        · have : ∃ sd, tv = jDict sd := by
            have := hsub.1
            simp [subEntryOkB, htr] at this
            cases tv <;> simp_all
          rcases this with ⟨sd, rfl⟩
          rcases hev : dictGet d "evaluation" with _ | ev
          · simp [pyGet, dictGetD, htr, hev, dictGet_nil, Bind.bind, Except.bind]
          · have : ∃ sd2, ev = jDict sd2 := by
              have := hsub.2
              simp [subEntryOkB, hev] at this
              cases ev <;> simp_all
            rcases this with ⟨sd2, rfl⟩
            simp [pyGet, dictGetD, htr, hev, dictGet_nil, Bind.bind, Except.bind]
      | jNull => simp [wfConfigOutcome, ht] at h
      | jBool b => simp [wfConfigOutcome, ht] at h
      | jInt n => simp [wfConfigOutcome, ht] at h
      | jStr s => simp [wfConfigOutcome, ht] at h
      | jList xs => simp [wfConfigOutcome, ht] at h
    · have ht' : truthy v = false := by simpa using ht
      simp [generateConfig, specLoadConfig, ht', pyGet, dictGetD, Bind.bind, Except.bind]
      cases v <;> simp_all [truthy, dictGet]

/-- C7 witness: a parse result carrying only a learning rate yields
that learning rate and defaults everywhere else. -/
theorem c7_load_config_witness :
    wfConfigOutcome (LoadOutcome.parsed (jDict
        [("training", jDict [("learning_rate", jStr "0.1")])])) = true
    ∧ generateConfig (LoadOutcome.parsed (jDict
        [("training", jDict [("learning_rate", jStr "0.1")])]))
      = .ok (specLoadConfig (LoadOutcome.parsed (jDict
        [("training", jDict [("learning_rate", jStr "0.1")])]))) :=
  ⟨by decide, c7_load_config _ (by decide)⟩

theorem beq_jStr (a b : String) : (jStr a == jStr b) = (a == b) := by
  by_cases h : a = b
  · subst h; simp
  · have h2 : jStr a ≠ jStr b := by simpa using h
    simp [h, h2]

/-- Analysis record produced for one string file name, as a total
function (used to reason about the `analyze_modules` loop). -/
def analyzeStr (n : String) : ModuleAnalysis :=
  let s := ((moduleSpecs.find? (fun p => p.1 == n)).map (fun p => p.2)).getD
    defaultModuleSpec
  { file_name := jStr n
  , functionality := s.functionality
  , expected_inputs := s.expected_inputs
  , expected_outputs := s.expected_outputs
  , dependencies := s.dependencies }

theorem analyzeOne_jStr (n : String) : analyzeOne (jStr n) = .ok (analyzeStr n) := by
  have hfind : moduleSpecs.find? (fun p => jStr p.1 == jStr n)
      = moduleSpecs.find? (fun p => p.1 == n) := by
    have h : (fun p : String × ModuleSpec => jStr p.1 == jStr n)
        = fun p : String × ModuleSpec => p.1 == n := by
      funext p
      exact beq_jStr p.1 n
    rw [h]
  simp [analyzeOne, specLookup, isHashable, hfind, analyzeStr, Bind.bind, Except.bind]

theorem mapM_analyzeOne (names : List String) :
    (names.map jStr).mapM analyzeOne = .ok (names.map analyzeStr) := by
  induction names with
  | nil => rfl
  | cons n rest ih =>
    rw [List.map_cons, List.mapM_cons, analyzeOne_jStr, ih]
    rfl

/-- C6 counterexample: for the unknown module name `mystery.py` the
analyzer emits the record with the placeholder functionality text
`No specific functionality defined.` (analyzer.py line 132), not with
an empty functionality string as the claim states. -/
theorem c6_counterexample :
    analyzeModules (jList [jStr "mystery.py"])
      = .ok [{ file_name := jStr "mystery.py"
             , functionality := "No specific functionality defined."
             , expected_inputs := []
             , expected_outputs := []
             , dependencies := [] }]
    ∧ "No specific functionality defined." ≠ "" := by
  exact ⟨rfl, by decide⟩

/-- C6 as amended: every module name outside the six known names is
emitted with the default spec — functionality
`No specific functionality defined.`, empty expected inputs, empty
expected outputs and empty dependencies — and the lookup miss never
makes `analyze_modules` raise. -/
theorem c6_unknown_module_fallback (names : List String) (name : String) (i : Nat)
    (hn : name ∉ moduleSpecs.map (fun p => p.1))
    (hi : names[i]? = some name) :
    (analyzeModules (jList (names.map jStr))).map (fun l => l[i]?)
      = .ok (some { file_name := jStr name
                  , functionality := "No specific functionality defined."
                  , expected_inputs := []
                  , expected_outputs := []
                  , dependencies := [] }) := by
  have hfind : moduleSpecs.find? (fun p => p.1 == name) = none := by
    rw [List.find?_eq_none]
    intro p hp
    simp only [beq_iff_eq]
    intro hpe
    exact hn (List.mem_map.mpr ⟨p, hp, hpe⟩)
  have hstr : analyzeStr name
      = { file_name := jStr name
        , functionality := "No specific functionality defined."
        , expected_inputs := []
        , expected_outputs := []
        , dependencies := [] } := by
    simp [analyzeStr, hfind, defaultModuleSpec]
  simp only [analyzeModules, pyIterList, Bind.bind, Except.bind, mapM_analyzeOne,
    Except.map]
  rw [List.getElem?_map, hi]
  simp [hstr]

/-- C6 witness: instantiation at the unknown name `mystery.py`. -/
theorem c6_unknown_module_fallback_witness :
    (analyzeModules (jList (["mystery.py"].map jStr))).map (fun l => l[0]?)
      = .ok (some { file_name := jStr "mystery.py"
                  , functionality := "No specific functionality defined."
                  , expected_inputs := []
                  , expected_outputs := []
                  , dependencies := [] }) :=
  c6_unknown_module_fallback ["mystery.py"] "mystery.py" 0 (by decide) (by decide)

/-- C10 (confirmed): when the plan has no `architecture_design` entry,
or its `file_list` is missing or the empty list, the analyzer
constructor substitutes the canonical six-entry file list without
raising, and `analyze_modules` on that list returns, without raising,
a non-empty list with exactly one record per canonical file name in
order (analyzer.py lines 13-43 and 126-147). -/
theorem c10_default_file_list (plan : List (String × JVal))
    (h : dictGet plan "architecture_design" = none
       ∨ ∃ d, dictGet plan "architecture_design" = some (jDict d)
           ∧ (dictGet d "file_list" = none ∨ dictGet d "file_list" = some (jList []))) :
    analyzerInit plan = .ok defaultFileListJ
    ∧ (analyzeModules defaultFileListJ).map
        (fun l => (l.map (fun a => a.file_name), l.isEmpty))
      = .ok (defaultFileList.map jStr, false) := by
  constructor
  · rcases h with h | ⟨d, hd, hfl⟩
    · simp [analyzerInit, dictGetD, h, truthy]
    · by_cases ht : truthy (jDict d) = true
      · rcases hfl with hfl | hfl <;>
          simp [analyzerInit, dictGetD, hd, ht, pyGet, hfl, truthy,
            Bind.bind, Except.bind]
      · have ht' : truthy (jDict d) = false := by simpa using ht
        simp [analyzerInit, dictGetD, hd, ht']
  · decide

/-- C10 witness: instantiation at the empty plan dictionary. -/
theorem c10_default_file_list_witness :
    analyzerInit [] = .ok defaultFileListJ
    ∧ (analyzeModules defaultFileListJ).map
        (fun l => (l.map (fun a => a.file_name), l.isEmpty))
      = .ok (defaultFileList.map jStr, false) :=
  c10_default_file_list [] (Or.inl rfl)

theorem promptFree_no_gold :
    strContains (lowerStr promptFree) "gold-standard" = false := by decide

theorem simulate_free_prompt : simulateLlmEvaluation promptFree = 4.5 := by
  simp [simulateLlmEvaluation, promptFree_no_gold]

theorem pyRound2_fixed : pyRound2 (4.5 : ℚ) = 4.5 := by
  have h1 : (4.5 : ℚ) * 100 = (450 : ℤ) := by norm_num
  have h2 : roundHalfEvenQ ((450 : ℤ) : ℚ) = 450 := by
    simp only [roundHalfEvenQ, Int.floor_intCast]
    norm_num
  rw [pyRound2, h1, h2]
  norm_num

theorem isEmpty_false_of_ne_nil {α : Type} {l : List α} (h : l ≠ []) :
    l.isEmpty = false := by
  cases l with
  | nil => exact absurd rfl h
  | cons a t => rfl

theorem evaluatorInit_explicit (repo : List (String × String)) (k : Int)
    (em : String) (o : LoadOutcome) (h1 : repo ≠ []) :
    evaluatorInit repo (some (jDict [("evaluation", jDict
        [("n_way_sampling", jInt k), ("evaluation_model", jStr em)])])) o
      = .ok ⟨repo, jInt k, jStr em⟩ := by
  have hne : repo.isEmpty = false := isEmpty_false_of_ne_nil h1
  simp [evaluatorInit, hne, pyGet, dictGetD, dictGet, List.find?,
    Bind.bind, Except.bind]

theorem evaluate_scores_no_gold (repo : List (String × String)) (k : Int)
    (emv : JVal) (hk : 1 ≤ k)
    (h2 : repo.any (fun p => p.1 == "gold_standard") = false) :
    (evaluate ⟨repo, jInt k, emv⟩).map
        (fun r => (r.reference_based_score, r.reference_free_score))
      = .ok (none, some (4.5 : ℚ)) := by
  obtain ⟨m, hm⟩ : ∃ m, k.toNat = m + 1 := by
    refine ⟨k.toNat - 1, ?_⟩
    omega
  have hrep : List.replicate k.toNat (simulateLlmEvaluation promptFree)
      = (4.5 : ℚ) :: List.replicate m (4.5 : ℚ) := by
    rw [simulate_free_prompt, hm, List.replicate_succ]
  have hne : ((m : ℚ) + 1) ≠ 0 := by positivity
  have hsum : ((4.5 : ℚ) :: List.replicate m (4.5 : ℚ)).sum
      = ((m : ℚ) + 1) * 4.5 := by
    rw [List.sum_cons, List.sum_replicate, nsmul_eq_mul]
    ring
  have hlen : ((((4.5 : ℚ) :: List.replicate m (4.5 : ℚ)).length : ℕ) : ℚ)
      = (m : ℚ) + 1 := by
    rw [List.length_cons, List.length_replicate]
    push_cast
    ring
  simp only [evaluate, pyRangeLen, h2, hrep, Bind.bind, Except.bind, Except.map]
  rw [hsum, hlen, mul_div_cancel_left₀ (4.5 : ℚ) hne]
  simp [pyRound2_fixed]

/-- C4 (confirmed): on a non-empty repository without the
`gold_standard` sentinel key, and any explicitly configured
`n_way_sampling ≥ 1`, `evaluate` returns no reference-based score and a
reference-free score of exactly 4.5 — the rounded average of
`n_way_sampling` stub calls, each 4.5 because the reference-free prompt
does not contain `gold-standard` (evaluation.py lines 92-160). -/
theorem c4_no_gold_standard (repo : List (String × String)) (k : Int) (em : String)
    (o : LoadOutcome) (h1 : repo ≠ [])
    (h2 : repo.any (fun p => p.1 == "gold_standard") = false)
    (h3 : 1 ≤ k) :
    (evaluateRepository repo (some (jDict [("evaluation", jDict
        [("n_way_sampling", jInt k), ("evaluation_model", jStr em)])])) o).map
      (fun r => (r.reference_based_score, r.reference_free_score))
      = .ok (none, some (4.5 : ℚ)) := by
  rw [evaluateRepository, evaluatorInit_explicit repo k em o h1]
  exact evaluate_scores_no_gold repo k (jStr em) h3 h2

/-- C4 witness: one stub-generated file, `n_way_sampling = 3`,
evaluation model `gpt-x`. -/
theorem c4_no_gold_standard_witness :
    (evaluateRepository [("main.py", "def main():")] (some (jDict [("evaluation", jDict
        [("n_way_sampling", jInt 3), ("evaluation_model", jStr "gpt-x")])]))
        LoadOutcome.failure).map
      (fun r => (r.reference_based_score, r.reference_free_score))
      = .ok (none, some (4.5 : ℚ)) :=
  c4_no_gold_standard [("main.py", "def main():")] 3 "gpt-x" LoadOutcome.failure
    (by decide) (by decide) (by decide)

theorem evaluate_scores_congr (repo1 repo2 : List (String × String))
    (nw emv : JVal)
    (hg : repo1.any (fun p => p.1 == "gold_standard")
        = repo2.any (fun p => p.1 == "gold_standard")) :
    (evaluate ⟨repo1, nw, emv⟩).map
        (fun r => (r.reference_based_score, r.reference_free_score))
      = (evaluate ⟨repo2, nw, emv⟩).map
        (fun r => (r.reference_based_score, r.reference_free_score)) := by
  simp only [evaluate, Bind.bind, Except.bind, Except.map]
  cases hn : pyRangeLen nw with
  | error e => rfl
  | ok n => rw [hg]

/-- C9 (confirmed): for non-empty repositories evaluated with the same
explicitly supplied config, the two score fields depend only on whether
the `gold_standard` key is present and on the configured
`n_way_sampling`: equal sentinel presence gives equal score fields
whatever the file contents, which only influence the summary
statistics (evaluation.py lines 92-160). -/
theorem c9_scores_ignore_file_contents (repo1 repo2 : List (String × String))
    (cfg : JVal) (o1 o2 : LoadOutcome)
    (h1 : repo1 ≠ []) (h2 : repo2 ≠ [])
    (hg : repo1.any (fun p => p.1 == "gold_standard")
        = repo2.any (fun p => p.1 == "gold_standard")) :
    (evaluateRepository repo1 (some cfg) o1).map
        (fun r => (r.reference_based_score, r.reference_free_score))
      = (evaluateRepository repo2 (some cfg) o2).map
        (fun r => (r.reference_based_score, r.reference_free_score)) := by
  have hne1 : repo1.isEmpty = false := isEmpty_false_of_ne_nil h1
  have hne2 : repo2.isEmpty = false := isEmpty_false_of_ne_nil h2
  simp only [evaluateRepository, evaluatorInit, hne1, hne2, Bool.false_eq_true,
    if_false, Bind.bind, Except.bind]
  cases hev : pyGet cfg "evaluation" (jDict []) with
  | error e => rfl
  | ok ec =>
    dsimp only
    cases hnw : pyGet ec "n_way_sampling" (jInt 8) with
    | error e => rfl
    | ok nw =>
      dsimp only
      cases hem : pyGet ec "evaluation_model" (jStr "o3-mini-high") with
      | error e => rfl
      | ok emv =>
        dsimp only
        exact evaluate_scores_congr repo1 repo2 nw emv hg

/-- C9 witness: two single-file repositories with different contents and
no sentinel key produce identical score fields. -/
theorem c9_scores_ignore_file_contents_witness :
    (evaluateRepository [("main.py", "def main():")]
        (some (jDict [("evaluation", jDict [("n_way_sampling", jInt 2)])]))
        LoadOutcome.failure).map
      (fun r => (r.reference_based_score, r.reference_free_score))
    = (evaluateRepository [("other.py", "x = 1"), ("more.py", "y = 2")]
        (some (jDict [("evaluation", jDict [("n_way_sampling", jInt 2)])]))
        LoadOutcome.failure).map
      (fun r => (r.reference_based_score, r.reference_free_score)) :=
  c9_scores_ignore_file_contents [("main.py", "def main():")]
    [("other.py", "x = 1"), ("more.py", "y = 2")]
    (jDict [("evaluation", jDict [("n_way_sampling", jInt 2)])])
    LoadOutcome.failure LoadOutcome.failure (by decide) (by decide) (by decide)

/-- Does a record entry carry a string (or no) `text` attribute, so that
`_clean_text(item.get("text", ""))` cannot raise. -/
def textOkB (d : List (String × JVal)) : Bool :=
  match dictGet d "text" with
  | some (jStr _) => true
  | some _ => false
  | none => true

/-- Well-shapedness of one entry of an `abstract`/`body_text`/
`back_matter` sequence. -/
def segItemOkB : JVal → Bool
  | jDict d => textOkB d
  | _ => true

/-- Well-shapedness of the `pdf_parse` fallback: the branch must not
raise `TypeError` at `"abstract" in paper_json["pdf_parse"]`, at the
subscript, or `AttributeError` inside the comprehension. -/
def wsPdfB (paper_json : List (String × JVal)) : Bool :=
  match dictGet paper_json "pdf_parse" with
  | none => true
  | some (jDict d) =>
    (match dictGet d "abstract" with
     | some (jList items) => items.all segItemOkB
     | _ => true)
  | some (jStr s) => !strContains s "abstract"
  | some (jList xs) => !xs.any (fun x => x == jStr "abstract")
  | some _ => false

/-- Well-shapedness of the abstract extraction. -/
def wsAbstractB (paper_json : List (String × JVal)) : Bool :=
  match dictGet paper_json "abstract" with
  | some av =>
    if truthy av then
      match av with
      | jList items => items.all segItemOkB
      | _ => true
    else wsPdfB paper_json
  | none => wsPdfB paper_json

/-- Well-shapedness of the body extraction. -/
def bodyItemsOkB (paper_json : List (String × JVal)) : Bool :=
  match dictGet paper_json "body_text" with
  | some (jList items) => items.all segItemOkB
  | _ => true

/-- Well-shapedness of the figure extraction. -/
def backItemsOkB (paper_json : List (String × JVal)) : Bool :=
  match dictGet paper_json "back_matter" with
  | some (jList items) => items.all segItemOkB
  | _ => true

/-- Well-shapedness of a whole paper record: no optional field makes
`parse` raise. -/
def wsPaperB (paper_json : List (String × JVal)) : Bool :=
  wsAbstractB paper_json && bodyItemsOkB paper_json && backItemsOkB paper_json

/-- Segment contributed by one entry under the rule the code
implements in its `abstract`/`body_text`/`back_matter` loops: record
entries contribute their trimmed text when non-empty, plain strings
always contribute (trimmed, even when empty). -/
def trimmedSegText : JVal → Option String
  | jDict d =>
    match dictGet d "text" with
    | some (jStr s) => if pyStrip s ≠ "" then some (pyStrip s) else none
    | _ => none
  | jStr s => some (pyStrip s)
  | _ => none

def trimmedSegTexts (items : List JVal) : List String :=
  items.filterMap trimmedSegText

/-- Segment contributed by one entry of the `pdf_parse` comprehension:
only record entries with a non-empty trimmed text contribute. -/
def pdfSegText : JVal → Option String
  | jDict d =>
    match dictGet d "text" with
    | some (jStr s) => if pyStrip s ≠ "" then some (pyStrip s) else none
    | _ => none
  | _ => none

def pdfSegTexts (items : List JVal) : List String :=
  items.filterMap pdfSegText

/-- Text of one sequence entry under the claim's reading of the spec
rule (records and plain strings alike contribute their text). -/
def specText : JVal → Option String
  | jDict d =>
    match dictGet d "text" with
    | some (jStr s) => some s
    | _ => none
  | jStr s => some s
  | _ => none

/-- The claim's sequence sub-rule: trim every contributed text and keep
only the non-empty values. -/
def specTexts (items : List JVal) : List String :=
  ((items.filterMap specText).map pyStrip).filter (fun s => s ≠ "")

/-- Abstract extraction exactly as C8 words it: apply the two
sub-rules to `raw.abstract` when it is a sequence or a string,
otherwise the same two sub-rules to `raw.pdfParse.abstract`, otherwise
the empty string. -/
def specAbstract (raw : List (String × JVal)) : String :=
  match dictGet raw "abstract" with
  | some (jList items) => String.intercalate " " (specTexts items)
  | some (jStr s) => pyStrip s
  | _ =>
    match dictGet raw "pdf_parse" with
    | some (jDict pd) =>
      match dictGet pd "abstract" with
      | some (jList items) => String.intercalate " " (specTexts items)
      | some (jStr s) => pyStrip s
      | _ => ""
    | _ => ""

/-- The `pdf_parse` fallback of the amended rule. -/
def specAbstractAmendedPdf (raw : List (String × JVal)) : String :=
  match dictGet raw "pdf_parse" with
  | some (jDict pd) =>
    match dictGet pd "abstract" with
    | some (jList items) => String.intercalate " " (pdfSegTexts items)
    | some (jStr s) => pyStrip s
    | _ => ""
  | _ => ""

/-- Abstract extraction rule as amended to match the code: the
`abstract` key counts only when truthy, plain-string entries of an
abstract sequence are kept even when empty after trimming, and
plain-string entries of the `pdf_parse` sequence are dropped. -/
def specAbstractAmended (raw : List (String × JVal)) : String :=
  match dictGet raw "abstract" with
  | some av =>
    if truthy av then
      match av with
      | jList items => String.intercalate " " (trimmedSegTexts items)
      | jStr s => pyStrip s
      | _ => ""
    else specAbstractAmendedPdf raw
  | none => specAbstractAmendedPdf raw

theorem collectSegs_eq : ∀ items : List JVal, items.all segItemOkB = true →
    collectSegs items = .ok (trimmedSegTexts items)
  | [], _ => rfl
  | it :: rest, h => by
    rw [List.all_cons, Bool.and_eq_true] at h
    obtain ⟨h1, h2⟩ := h
    have ih := collectSegs_eq rest h2
    cases it with
    | jDict d =>
      cases htx : dictGet d "text" with
      | none =>
        simp [collectSegs, trimmedSegTexts, trimmedSegText, dictGetD, htx, ih,
          pyStripV, pyStrip, Bind.bind, Except.bind, List.filterMap_cons]
      | some v =>
        have hv : ∃ s, v = jStr s := by
          simp only [segItemOkB, textOkB, htx] at h1
          cases v <;> simp_all
        obtain ⟨s, rfl⟩ := hv
        by_cases hs : pyStrip s = ""
        · simp [collectSegs, trimmedSegTexts, trimmedSegText, dictGetD, htx, ih,
            hs, pyStripV, Bind.bind, Except.bind, List.filterMap_cons]
        · simp [collectSegs, trimmedSegTexts, trimmedSegText, dictGetD, htx, ih,
            hs, pyStripV, Bind.bind, Except.bind, List.filterMap_cons]
    | jStr s =>
      simp [collectSegs, trimmedSegTexts, trimmedSegText, ih, Bind.bind,
        Except.bind, List.filterMap_cons]
    | jNull =>
      simp [collectSegs, trimmedSegTexts, trimmedSegText, ih, List.filterMap_cons]
    | jBool b =>
      simp [collectSegs, trimmedSegTexts, trimmedSegText, ih, List.filterMap_cons]
    | jInt n =>
      simp [collectSegs, trimmedSegTexts, trimmedSegText, ih, List.filterMap_cons]
    | jList xs =>
      simp [collectSegs, trimmedSegTexts, trimmedSegText, ih, List.filterMap_cons]

theorem collectSegsPdf_eq : ∀ items : List JVal, items.all segItemOkB = true →
    collectSegsPdf items = .ok (pdfSegTexts items)
  | [], _ => rfl
  | it :: rest, h => by
    rw [List.all_cons, Bool.and_eq_true] at h
    obtain ⟨h1, h2⟩ := h
    have ih := collectSegsPdf_eq rest h2
    cases it with
    | jDict d =>
      cases htx : dictGet d "text" with
      | none =>
        simp [collectSegsPdf, pdfSegTexts, pdfSegText, dictGetD, htx, ih,
          pyStripV, pyStrip, Bind.bind, Except.bind, List.filterMap_cons]
      | some v =>
        have hv : ∃ s, v = jStr s := by
          simp only [segItemOkB, textOkB, htx] at h1
          cases v <;> simp_all
        obtain ⟨s, rfl⟩ := hv
        by_cases hs : pyStrip s = ""
        · simp [collectSegsPdf, pdfSegTexts, pdfSegText, dictGetD, htx, ih, hs,
            pyStripV, Bind.bind, Except.bind, List.filterMap_cons]
        · simp [collectSegsPdf, pdfSegTexts, pdfSegText, dictGetD, htx, ih, hs,
            pyStripV, Bind.bind, Except.bind, List.filterMap_cons]
    | jStr s =>
      simp [collectSegsPdf, pdfSegTexts, pdfSegText, ih, List.filterMap_cons]
    | jNull =>
      simp [collectSegsPdf, pdfSegTexts, pdfSegText, ih, List.filterMap_cons]
    | jBool b =>
      simp [collectSegsPdf, pdfSegTexts, pdfSegText, ih, List.filterMap_cons]
    | jInt n =>
      simp [collectSegsPdf, pdfSegTexts, pdfSegText, ih, List.filterMap_cons]
    | jList xs =>
      simp [collectSegsPdf, pdfSegTexts, pdfSegText, ih, List.filterMap_cons]

theorem dictGet_some_of_any {d : List (String × JVal)} {k : String}
    (h : d.any (fun p => p.1 == k) = true) : ∃ x, dictGet d k = some x := by
  rw [List.any_eq_true] at h
  obtain ⟨p, hp, hpk⟩ := h
  have : (d.find? (fun p => p.1 == k)).isSome := by
    rw [List.find?_isSome]
    exact ⟨p, hp, hpk⟩
  obtain ⟨q, hq⟩ := Option.isSome_iff_exists.mp this
  exact ⟨q.2, by simp [dictGet, hq]⟩

theorem dictGet_none_of_not_any {d : List (String × JVal)} {k : String}
    (h : d.any (fun p => p.1 == k) = false) : dictGet d k = none := by
  rw [List.any_eq_false] at h
  have : d.find? (fun p => p.1 == k) = none := by
    rw [List.find?_eq_none]
    exact h
  simp [dictGet, this]

theorem extractAbstractPdf_eq (pj : List (String × JVal))
    (h : wsPdfB pj = true) :
    extractAbstractPdf pj = .ok (specAbstractAmendedPdf pj) := by
  unfold extractAbstractPdf specAbstractAmendedPdf
  cases hp : dictGet pj "pdf_parse" with
  | none => rfl
  | some pv =>
    rw [wsPdfB, hp] at h
    cases pv with
    | jDict d =>
      try dsimp only at h
      by_cases hk : d.any (fun p => p.1 == "abstract") = true
      · obtain ⟨x, hx⟩ := dictGet_some_of_any hk
        rw [hx] at h
        try dsimp only at h
        cases x with
        | jList items =>
          simp [pyIn, hk, pySubscript, hx, collectSegsPdf_eq items h,
            Bind.bind, Except.bind]
        | jStr s => simp [pyIn, hk, pySubscript, hx, Bind.bind, Except.bind]
        | jNull => simp [pyIn, hk, pySubscript, hx, Bind.bind, Except.bind]
        | jBool b => simp [pyIn, hk, pySubscript, hx, Bind.bind, Except.bind]
        | jInt n => simp [pyIn, hk, pySubscript, hx, Bind.bind, Except.bind]
        | jDict d2 => simp [pyIn, hk, pySubscript, hx, Bind.bind, Except.bind]
      · have hk' : d.any (fun p => p.1 == "abstract") = false := by
          rw [← Bool.not_eq_true]
          exact hk
        have hx := dictGet_none_of_not_any hk'
        simp [pyIn, hk', hx, Bind.bind, Except.bind]
    | jStr s =>
      try dsimp only at h
      have hc : strContains s "abstract" = false := by simpa using h
      simp [pyIn, hc, Bind.bind, Except.bind]
    | jList xs =>
      try dsimp only at h
      have hc : xs.any (fun x => x == jStr "abstract") = false := by simpa using h
      simp [pyIn, hc, Bind.bind, Except.bind]
    | jNull => exact absurd h (by simp)
    | jBool b => exact absurd h (by simp)
    | jInt n => exact absurd h (by simp)

theorem extractAbstract_eq (pj : List (String × JVal))
    (h : wsAbstractB pj = true) :
    extractAbstract pj = .ok (specAbstractAmended pj) := by
  unfold extractAbstract specAbstractAmended
  cases ha : dictGet pj "abstract" with
  | none =>
    rw [wsAbstractB, ha] at h
    dsimp only at h
    exact extractAbstractPdf_eq pj h
  | some av =>
    rw [wsAbstractB, ha] at h
    dsimp only at h
    dsimp only
    by_cases ht : truthy av = true
    · rw [if_pos ht] at h
      rw [if_pos ht, if_pos ht]
      cases av with
      | jList items =>
        dsimp only at h ⊢
        rw [collectSegs_eq items h]
        rfl
      | jStr s => rfl
      | jNull => rfl
      | jBool b => rfl
      | jInt n => rfl
      | jDict d => rfl
    · rw [if_neg ht] at h
      rw [if_neg ht, if_neg ht]
      exact extractAbstractPdf_eq pj h

theorem extractBody_eq (pj : List (String × JVal))
    (h : bodyItemsOkB pj = true) :
    ∃ s, extractBody pj = .ok s := by
  unfold extractBody
  cases hb : dictGet pj "body_text" with
  | none => exact ⟨"", rfl⟩
  | some bv =>
    cases bv with
    | jList items =>
      rw [bodyItemsOkB, hb] at h
      dsimp only at h ⊢
      rw [collectSegs_eq items h]
      exact ⟨String.intercalate "\n" (trimmedSegTexts items), rfl⟩
    | jStr s => exact ⟨"", rfl⟩
    | jNull => exact ⟨"", rfl⟩
    | jBool b => exact ⟨"", rfl⟩
    | jInt n => exact ⟨"", rfl⟩
    | jDict d => exact ⟨"", rfl⟩

theorem extractFigures_eq (pj : List (String × JVal))
    (h : backItemsOkB pj = true) :
    ∃ l, extractFigures pj = .ok l := by
  unfold extractFigures
  cases hb : dictGet pj "back_matter" with
  | none => exact ⟨[], rfl⟩
  | some bv =>
    cases bv with
    | jList items =>
      rw [backItemsOkB, hb] at h
      dsimp only at h ⊢
      rw [collectSegs_eq items h]
      exact ⟨trimmedSegTexts items, rfl⟩
    | jStr s => exact ⟨[], rfl⟩
    | jNull => exact ⟨[], rfl⟩
    | jBool b => exact ⟨[], rfl⟩
    | jInt n => exact ⟨[], rfl⟩
    | jDict d => exact ⟨[], rfl⟩

theorem any_of_dictGet_some {d : List (String × JVal)} {k : String} {x : JVal}
    (h : dictGet d k = some x) : d.any (fun p => p.1 == k) = true := by
  by_cases ha : d.any (fun p => p.1 == k) = true
  · exact ha
  · have hn := dictGet_none_of_not_any (by rw [← Bool.not_eq_true]; exact ha)
    rw [hn] at h
    cases h

theorem not_any_of_dictGet_none {d : List (String × JVal)} {k : String}
    (h : dictGet d k = none) : d.any (fun p => p.1 == k) = false := by
  by_cases ha : d.any (fun p => p.1 == k) = true
  · obtain ⟨x, hx⟩ := dictGet_some_of_any ha
    rw [h] at hx
    cases hx
  · rw [← Bool.not_eq_true]
    exact ha

/-- C8 counterexample: for the abstract sequence `["x", " ", "y"]` the
code appends the trimmed plain-string entry even though it is empty
(paper_parser.py line 72) and joins to `"x  y"` with two spaces,
while the claim's rule — concatenate only the non-empty trimmed
values — yields `"x y"`. -/
theorem c8_counterexample :
    extractAbstract [("paper_id", jStr "1"), ("title", jStr "t"),
        ("abstract", jList [jStr "x", jStr " ", jStr "y"])] = .ok "x  y"
    ∧ specAbstract [("paper_id", jStr "1"), ("title", jStr "t"),
        ("abstract", jList [jStr "x", jStr " ", jStr "y"])] = "x y"
    ∧ ("x  y" : String) ≠ "x y" := by
  refine ⟨by decide, by decide, by decide⟩

/-- C8 as amended: on well-shaped inputs the abstract extraction
follows the code's rule: a present and truthy `abstract` sequence
contributes the trimmed `text` of its record entries when non-empty
and its plain-string entries always (trimmed, even when empty), joined
by single spaces; a truthy `abstract` string is trimmed; otherwise the
`pdf_parse.abstract` fallback applies the record sub-rule only
(plain strings dropped); otherwise the result is empty. -/
theorem c8_abstract_extraction_rule (raw : List (String × JVal))
    (h : wsAbstractB raw = true) :
    extractAbstract raw = .ok (specAbstractAmended raw) :=
  extractAbstract_eq raw h

/-- C8 witness: a mixed sequence of a record and a plain string. -/
theorem c8_abstract_extraction_rule_witness :
    wsAbstractB [("abstract",
        jList [jDict [("text", jStr " a ")], jStr "b", jInt 7])] = true
    ∧ extractAbstract [("abstract",
        jList [jDict [("text", jStr " a ")], jStr "b", jInt 7])]
      = .ok (specAbstractAmended [("abstract",
        jList [jDict [("text", jStr " a ")], jStr "b", jInt 7])]) :=
  ⟨by decide, c8_abstract_extraction_rule _ (by decide)⟩

/-- C1 counterexample: a record carrying both required fields but an
ill-shaped optional `pdf_parse` value makes `parse` raise `TypeError`
at `"abstract" in paper_json["pdf_parse"]` (paper_parser.py line 76),
so parsing does not succeed for every record containing `paper_id`
and `title`. -/
theorem c1_counterexample :
    paperParse [("paper_id", jStr "1"), ("title", jStr "t"),
        ("pdf_parse", jInt 5)]
      = .error typeError := by decide

/-- C1 as amended: a record missing `paper_id` or `title` always makes
the constructor raise `ValueError` — the spec's `InvalidInputError` —
with the source's message; a record carrying both fields as strings
parses successfully provided its optional fields are well-shaped, and
the returned `paper_id` and `title` are the input values with
surrounding whitespace trimmed.  Ill-shaped optional fields (such as a
non-container `pdf_parse`) raise `TypeError`/`AttributeError` even
when both required fields are present. -/
theorem c1_required_fields (raw : List (String × JVal)) (s t : String) :
    ((dictGet raw "paper_id" = none ∨ dictGet raw "title" = none) →
      paperParserInit raw
        = .error (valueError "Paper JSON must contain 'paper_id' and 'title' fields."))
    ∧ (wsPaperB raw = true →
       dictGet raw "paper_id" = some (jStr s) →
       dictGet raw "title" = some (jStr t) →
       (paperParse raw).map (fun p => (p.paper_id, p.title))
         = .ok (pyStrip s, pyStrip t)) := by
  constructor
  · intro hmiss
    have hfa : raw.any (fun p => p.1 == "paper_id") = false
        ∨ raw.any (fun p => p.1 == "title") = false := by
      rcases hmiss with hm | hm
      · exact Or.inl (not_any_of_dictGet_none hm)
      · exact Or.inr (not_any_of_dictGet_none hm)
    rcases hfa with ha | ha <;> simp [paperParserInit, ha]
  · intro hws hid htl
    have hsplit : wsAbstractB raw = true ∧ bodyItemsOkB raw = true
        ∧ backItemsOkB raw = true := by
      simpa [wsPaperB, Bool.and_eq_true, and_assoc] using hws
    obtain ⟨hab, hbd, hbk⟩ := hsplit
    have hany1 := any_of_dictGet_some hid
    have hany2 := any_of_dictGet_some htl
    have hinit : paperParserInit raw = .ok () := by
      simp [paperParserInit, hany1, hany2]
    obtain ⟨bd, hbd'⟩ := extractBody_eq raw hbd
    obtain ⟨figs, hfg⟩ := extractFigures_eq raw hbk
    have hab' := extractAbstract_eq raw hab
    simp only [paperParse, hinit, Bind.bind, Except.bind]
    simp only [parseFields, hab', hbd', hfg, Bind.bind, Except.bind, Except.map]
    simp [dictGetD, hid, htl, pyStr]

/-- C1 witness: one record missing `paper_id`, one well-shaped record
with whitespace around both required fields. -/
theorem c1_required_fields_witness :
    paperParserInit [("title", jStr "t")]
      = .error (valueError "Paper JSON must contain 'paper_id' and 'title' fields.")
    ∧ (paperParse [("paper_id", jStr " 7 "), ("title", jStr " T "),
        ("abstract", jStr "A")]).map (fun p => (p.paper_id, p.title))
      = .ok (pyStrip " 7 ", pyStrip " T ") :=
  ⟨(c1_required_fields [("title", jStr "t")] "" "").1 (Or.inl (by decide)),
   (c1_required_fields [("paper_id", jStr " 7 "), ("title", jStr " T "),
      ("abstract", jStr "A")] " 7 " " T ").2 (by decide) (by decide) (by decide)⟩

/-- Split a character stream at newlines (used to keep evaluation of
substring tests over the multi-kilobyte template shallow enough for
the kernel: each line is scanned separately). -/
def splitLinesAux (acc : List Char) : List Char → List (List Char)
  | [] => [acc.reverse]
  | c :: rest =>
    if c == '\n' then acc.reverse :: splitLinesAux [] rest
    else splitLinesAux (c :: acc) rest

/-- Substring containment for a needle that contains no newline,
computed line by line; on such needles it agrees with `strContains`. -/
def strContainsViaLines (s needle : String) : Bool :=
  (splitLinesAux [] s.data).any (fun l => strContainsChars needle.data l)

/-- Functionality text the analyzer attaches to `code_generator.py`
(analyzer.py lines 96-99), the `details` argument the pipeline passes
when generating the code-generation module. -/
def cgDetails : String :=
  "Generates modular, dependency-aware code templates for each file based on the overall plan and "
    ++ "the detailed analysis produced by Analyzer."

/-- Plan dictionary carrying the configuration of C5. -/
def c5Plan : List (String × JVal) :=
  [("config", jDict
    [ ("training", jDict
        [ ("learning_rate", jStr "0.01")
        , ("batch_size", jStr "64")
        , ("epochs", jStr "5") ])
    , ("evaluation", jDict
        [ ("n_way_sampling", jInt 3)
        , ("evaluation_model", jStr "gpt-x") ]) ])]

set_option maxRecDepth 2000 in
/-- C5 on the documented intent (the source branch itself is
unparseable Python, see `intendedSelfTemplate`): injecting the C5
configuration into the intended code-generation template yields text
containing the literal substrings `0.01`, `64` and `5`, with none of
the five configuration placeholder markers remaining. -/
theorem c5_intended_injection :
    (injectConfiguration c5Plan (intendedSelfTemplate cgDetails)).map (fun out =>
      (strContainsViaLines out "0.01", strContainsViaLines out "64",
        strContainsViaLines out "5",
        strContainsViaLines out "\x7blearning_rate\x7d"
          || strContainsViaLines out "\x7bbatch_size\x7d"
          || strContainsViaLines out "\x7bepochs\x7d"
          || strContainsViaLines out "\x7bn_way_sampling\x7d"
          || strContainsViaLines out "\x7bevaluation_model\x7d"))
      = .ok (true, true, true, false) := by decide

end Paper2Code
